import Mathlib

/-!
Shallow embedding of `blackmagic_design/Resolve.py`.

The module wraps the DaVinci Resolve scripting API. External effects
(`os.path.exists`, `subprocess.run`, `subprocess.Popen`, `time.sleep`, and the
vendor automation objects) are modelled as oracles supplied through explicit
environment records; each Python exception that such a primitive may raise is
modelled as the `Except.error` branch of its oracle. The functions below are
direct translations of the Python method bodies, and each one additionally
returns the ordered trace of external effects it performed.
-/

/-- A Python exception value; `msg` is its `str(e)` rendering. -/
structure Exn where
  msg : String
deriving DecidableEq, Repr

/-- `containsSub hay needle` decides whether `needle` occurs as a contiguous
sublist of `hay`; it models Python's `needle in hay` test on strings. -/
def containsSub : List Char → List Char → Bool
  | [], needle => needle.isEmpty
  | c :: t, needle => needle.isPrefixOf (c :: t) || containsSub t needle

/-- Python's substring test `needle in hay`. -/
def strContains (hay needle : String) : Bool :=
  containsSub hay.data needle.data

/-- The message for a missing executable path (from `Resolve.open`). -/
def notFoundMsg (executable_path : String) : String :=
  "Error: Resolve executable not found at \x27" ++ executable_path ++
    "\x27. Please check the path and try again."

/-- Message returned when the first task-list query shows Resolve. -/
def alreadyRunningMsg : String := "DaVinci Resolve is already running."

/-- Message returned when the second task-list query shows Resolve. -/
def openedMsg : String := "DaVinci Resolve opened successfully."

/-- Message returned when the second task-list query does not show Resolve. -/
def notDetectedMsg : String :=
  "Error: Failed to detect Resolve in the task list. Please verify if the application has started."

/-- Message built by the `except` clause of `Resolve.open`. -/
def openFailMsg (e : Exn) : String :=
  "Error: Failed to open DaVinci Resolve - " ++ e.msg

/-- Environment for `Resolve.open`: the observable behaviour of the OS
primitives it uses.  `tasklist n` is the outcome of the `n`-th
`subprocess.run(['tasklist'], ...)` call (its captured stdout, or the
exception it raises); `popen` and `sleep` are the outcomes of the single
`subprocess.Popen` and `time.sleep` calls. -/
structure OpenEnv where
  pathExists : String → Bool
  tasklist : Nat → Except Exn String
  popen : Except Exn Unit
  sleep : Except Exn Unit

/-- One external effect performed by the lifecycle helpers. -/
inductive Event where
  | run (cmd : List String)
  | popenList (args : List String)
  | popenStr (cmd : String)
  | sleep (secs : Nat)
deriving DecidableEq, Repr

/-- Second half of `Resolve.open`'s try block: `time.sleep(wait_time)`
followed by the re-check of the task list, appending to the trace `tr`. -/
def afterLaunch (env : OpenEnv) (wait_time : Nat) (tr : List Event) :
    String × List Event :=
  match env.sleep with
  | .error e => (openFailMsg e, tr ++ [Event.sleep wait_time])
  | .ok _ =>
    match env.tasklist 1 with
    | .error e => (openFailMsg e, tr ++ [Event.sleep wait_time, Event.run ["tasklist"]])
    | .ok out2 =>
      if strContains out2 "Resolve.exe" then
        (openedMsg, tr ++ [Event.sleep wait_time, Event.run ["tasklist"]])
      else
        (notDetectedMsg, tr ++ [Event.sleep wait_time, Event.run ["tasklist"]])

/-- `Resolve.open(executable_path, wait_time, gui)`: returns the reported
string together with the trace of external effects. -/
def Resolve.openApp (env : OpenEnv) (executable_path : String)
    (wait_time : Nat) (gui : String) : String × List Event :=
  if !env.pathExists executable_path then
    (notFoundMsg executable_path, [])
  else
    match env.tasklist 0 with
    | .error e => (openFailMsg e, [Event.run ["tasklist"]])
    | .ok out1 =>
      if strContains out1 "Resolve.exe" then
        (alreadyRunningMsg, [Event.run ["tasklist"]])
      else
        if gui = "-gui" then
          match env.popen with
          | .error e =>
            (openFailMsg e, [Event.run ["tasklist"], Event.popenList [executable_path]])
          | .ok _ =>
            afterLaunch env wait_time [Event.run ["tasklist"], Event.popenList [executable_path]]
        else if gui = "-nogui" then
          match env.popen with
          | .error e =>
            (openFailMsg e,
              [Event.run ["tasklist"], Event.popenStr (executable_path ++ " -nogui")])
          | .ok _ =>
            afterLaunch env wait_time
              [Event.run ["tasklist"], Event.popenStr (executable_path ++ " -nogui")]
        else
          afterLaunch env wait_time [Event.run ["tasklist"]]

/-- Environment for `Resolve.kill`: `run cmd` is the captured stdout of
`subprocess.run(cmd, capture_output=True, text=True)`, or the exception it
raises. -/
structure KillEnv where
  run : List String → Except Exn String

/-- The exact argument vector of the `taskkill` invocation in `Resolve.kill`. -/
def killCmd : List String := ["taskkill", "/IM", "Resolve.exe", "/F"]

/-- Message returned by `Resolve.kill` when taskkill reports SUCCESS. -/
def killedMsg : String := "DaVinci Resolve has been forcefully terminated."

/-- Message returned by `Resolve.kill` when taskkill does not report SUCCESS. -/
def killFailedMsg : String :=
  "Failed to terminate DaVinci Resolve. Process may not be running."

/-- Message built by the `except` clause of `Resolve.kill`. -/
def killExnMsg (e : Exn) : String :=
  "Failed to kill DaVinci Resolve: " ++ e.msg

/-- `Resolve.kill()`: result string plus effect trace. -/
def Resolve.kill (env : KillEnv) : String × List Event :=
  match env.run killCmd with
  | .error e => (killExnMsg e, [Event.run killCmd])
  | .ok out =>
    if strContains out "SUCCESS" then
      (killedMsg, [Event.run killCmd])
    else
      (killFailedMsg, [Event.run killCmd])

/-- A Python value, as far as the wrapper methods observe it: the vendor
objects, media-pool items, dictionaries and so on are opaque (`obj`). -/
inductive PyVal where
  | none
  | bool (b : Bool)
  | int (n : Int)
  | str (s : String)
  | list (xs : List PyVal)
  | obj (id : Nat)

/-- Python truthiness of a modelled value (opaque objects are truthy). -/
def PyVal.truthy : PyVal → Bool
  | .none => false
  | .bool b => b
  | .int n => n != 0
  | .str s => !s.isEmpty
  | .list xs => !xs.isEmpty
  | .obj _ => true

/-- A vendor automation object: each named operation maps an argument list to
a result.  One oracle models `self.app`, `self.media_storage` or
`self.project_manager` as observed through the calls the wrappers make. -/
def Oracle : Type := String → List PyVal → PyVal

/-- One call made to a vendor object: operation name and arguments. -/
def VCall : Type := String × List PyVal

/-- The exceptions a wrapper method raises on its own. -/
inductive PyErr where
  | valueError (msg : String)
deriving DecidableEq, Repr

/-- Python's `str.lower()` (as character-wise lowering, which is what it
does on the ASCII page names involved). -/
def pyLower (s : String) : String := String.mk (s.data.map Char.toLower)

/-- The `valid_pages` list of `Resolve.open_page`. -/
def valid_pages : List String :=
  ["media", "cut", "edit", "fusion", "color", "fairlight", "deliver"]

/-- The `ValueError` message raised by `Resolve.open_page`. -/
def invalidPageMsg (page_name : String) : String :=
  "Invalid page name: " ++ page_name ++
    ". Must be one of [\x27media\x27, \x27cut\x27, \x27edit\x27, \x27fusion\x27, \x27color\x27, \x27fairlight\x27, \x27deliver\x27]."

/-- The public methods of `Resolve` that forward to the vendor `self.app`
object, together with their argument tuples.  (`open`, `quit`, `kill`,
`get_media_storage` and `get_project_manager` are not vendor forwards and are
modelled separately.) -/
inductive RMethod where
  | open_page (page_name : String)
  | get_current_page
  | get_product_name
  | get_version
  | get_version_string
  | load_layout_preset (preset_name : String)
  | update_layout_preset (preset_name : String)
  | export_layout_preset (preset_name preset_file_path : String)
  | delete_layout_preset (preset_name : String)
  | save_layout_preset (preset_name : String)
  | import_layout_preset (preset_file_path : String) (preset_name : PyVal)
  | import_render_preset (preset_path : String)
  | export_render_preset (preset_name export_path : String)
  | import_burn_in_preset (preset_path : String)
  | export_burn_in_preset (preset_name export_path : String)

/-- Each `Resolve` wrapper method body, translated line by line from the
source; the result is the returned value (or the `ValueError` that
`open_page` raises) together with the vendor calls made. -/
def RMethod.run (o : Oracle) : RMethod → Except PyErr PyVal × List VCall
  | .open_page page_name =>
    if !valid_pages.contains (pyLower page_name) then
      (.error (.valueError (invalidPageMsg page_name)), [])
    else
      (.ok (o "OpenPage" [.str (pyLower page_name)]), [("OpenPage", [.str (pyLower page_name)])])
  | .get_current_page => (.ok (o "GetCurrentPage" []), [("GetCurrentPage", [])])
  | .get_product_name => (.ok (o "GetProductName" []), [("GetProductName", [])])
  | .get_version => (.ok (o "GetVersion" []), [("GetVersion", [])])
  | .get_version_string => (.ok (o "GetVersionString" []), [("GetVersionString", [])])
  | .load_layout_preset n => (.ok (o "LoadLayoutPreset" [.str n]), [("LoadLayoutPreset", [.str n])])
  | .update_layout_preset n =>
    (.ok (o "UpdateLayoutPreset" [.str n]), [("UpdateLayoutPreset", [.str n])])
  | .export_layout_preset n p =>
    (.ok (o "ExportLayoutPreset" [.str n, .str p]), [("ExportLayoutPreset", [.str n, .str p])])
  | .delete_layout_preset n =>
    (.ok (o "DeleteLayoutPreset" [.str n]), [("DeleteLayoutPreset", [.str n])])
  | .save_layout_preset n => (.ok (o "SaveLayoutPreset" [.str n]), [("SaveLayoutPreset", [.str n])])
  | .import_layout_preset p n =>
    (.ok (o "ImportLayoutPreset" [.str p, n]), [("ImportLayoutPreset", [.str p, n])])
  | .import_render_preset p =>
    (.ok (o "ImportRenderPreset" [.str p]), [("ImportRenderPreset", [.str p])])
  | .export_render_preset n p =>
    (.ok (o "ExportRenderPreset" [.str n, .str p]), [("ExportRenderPreset", [.str n, .str p])])
  | .import_burn_in_preset p =>
    (.ok (o "ImportBurnInPreset" [.str p]), [("ImportBurnInPreset", [.str p])])
  | .export_burn_in_preset n p =>
    (.ok (o "ExportBurnInPreset" [.str n, .str p]), [("ExportBurnInPreset", [.str n, .str p])])

/-- The vendor operation name named in each `Resolve` method body. -/
def RMethod.vendorOp : RMethod → String
  | .open_page _ => "OpenPage"
  | .get_current_page => "GetCurrentPage"
  | .get_product_name => "GetProductName"
  | .get_version => "GetVersion"
  | .get_version_string => "GetVersionString"
  | .load_layout_preset _ => "LoadLayoutPreset"
  | .update_layout_preset _ => "UpdateLayoutPreset"
  | .export_layout_preset _ _ => "ExportLayoutPreset"
  | .delete_layout_preset _ => "DeleteLayoutPreset"
  | .save_layout_preset _ => "SaveLayoutPreset"
  | .import_layout_preset _ _ => "ImportLayoutPreset"
  | .import_render_preset _ => "ImportRenderPreset"
  | .export_render_preset _ _ => "ExportRenderPreset"
  | .import_burn_in_preset _ => "ImportBurnInPreset"
  | .export_burn_in_preset _ _ => "ExportBurnInPreset"

/-- The method's own arguments, encoded untransformed as vendor-call
arguments (what a pure pass-through would forward). -/
def RMethod.rawArgs : RMethod → List PyVal
  | .open_page page_name => [.str page_name]
  | .get_current_page => []
  | .get_product_name => []
  | .get_version => []
  | .get_version_string => []
  | .load_layout_preset n => [.str n]
  | .update_layout_preset n => [.str n]
  | .export_layout_preset n p => [.str n, .str p]
  | .delete_layout_preset n => [.str n]
  | .save_layout_preset n => [.str n]
  | .import_layout_preset p n => [.str p, n]
  | .import_render_preset p => [.str p]
  | .export_render_preset n p => [.str n, .str p]
  | .import_burn_in_preset p => [.str p]
  | .export_burn_in_preset n p => [.str n, .str p]

/-- The public methods of `MediaStorage`, with their argument tuples.
`add_item_list_to_media_pool` is the `*items` varargs form. -/
inductive MSMethod where
  | get_mounted_volume_list
  | get_sub_folder_list (folder_path : String)
  | get_file_list (folder_path : String)
  | reveal_in_storage (path : String)
  | add_item_list_to_media_pool (items : List PyVal)
  | add_item_list_to_media_pool_array (items : List PyVal)
  | add_item_list_to_media_pool_info (item_info_list : List PyVal)
  | add_clip_mattes_to_media_pool (media_pool_item : PyVal) (paths : List PyVal) (stereo_eye : PyVal)
  | add_timeline_mattes_to_media_pool (paths : List PyVal)

/-- Each `MediaStorage` method body, translated from the source: the value
returned and the vendor calls made on `self.media_storage`. -/
def MSMethod.run (o : Oracle) : MSMethod → PyVal × List VCall
  | .get_mounted_volume_list =>
    (o "GetMountedVolumeList" [], [("GetMountedVolumeList", [])])
  | .get_sub_folder_list fp => (o "GetSubFolderList" [.str fp], [("GetSubFolderList", [.str fp])])
  | .get_file_list fp => (o "GetFileList" [.str fp], [("GetFileList", [.str fp])])
  | .reveal_in_storage p => (o "RevealInStorage" [.str p], [("RevealInStorage", [.str p])])
  | .add_item_list_to_media_pool items =>
    (o "AddItemListToMediaPool" items, [("AddItemListToMediaPool", items)])
  | .add_item_list_to_media_pool_array items =>
    (o "AddItemListToMediaPool" [.list items], [("AddItemListToMediaPool", [.list items])])
  | .add_item_list_to_media_pool_info item_info_list =>
    (o "AddItemListToMediaPool" [.list item_info_list],
      [("AddItemListToMediaPool", [.list item_info_list])])
  | .add_clip_mattes_to_media_pool mpi paths se =>
    (o "AddClipMattesToMediaPool" [mpi, .list paths, se],
      [("AddClipMattesToMediaPool", [mpi, .list paths, se])])
  | .add_timeline_mattes_to_media_pool paths =>
    (o "AddTimelineMattesToMediaPool" [.list paths],
      [("AddTimelineMattesToMediaPool", [.list paths])])

/-- The Python name of each `MediaStorage` public method. -/
def MSMethod.pyName : MSMethod → String
  | .get_mounted_volume_list => "get_mounted_volume_list"
  | .get_sub_folder_list _ => "get_sub_folder_list"
  | .get_file_list _ => "get_file_list"
  | .reveal_in_storage _ => "reveal_in_storage"
  | .add_item_list_to_media_pool _ => "add_item_list_to_media_pool"
  | .add_item_list_to_media_pool_array _ => "add_item_list_to_media_pool_array"
  | .add_item_list_to_media_pool_info _ => "add_item_list_to_media_pool_info"
  | .add_clip_mattes_to_media_pool _ _ _ => "add_clip_mattes_to_media_pool"
  | .add_timeline_mattes_to_media_pool _ => "add_timeline_mattes_to_media_pool"

/-- The vendor operation name named in each `MediaStorage` method body. -/
def MSMethod.vendorOp : MSMethod → String
  | .get_mounted_volume_list => "GetMountedVolumeList"
  | .get_sub_folder_list _ => "GetSubFolderList"
  | .get_file_list _ => "GetFileList"
  | .reveal_in_storage _ => "RevealInStorage"
  | .add_item_list_to_media_pool _ => "AddItemListToMediaPool"
  | .add_item_list_to_media_pool_array _ => "AddItemListToMediaPool"
  | .add_item_list_to_media_pool_info _ => "AddItemListToMediaPool"
  | .add_clip_mattes_to_media_pool _ _ _ => "AddClipMattesToMediaPool"
  | .add_timeline_mattes_to_media_pool _ => "AddTimelineMattesToMediaPool"

/-- The method's own arguments, encoded untransformed. -/
def MSMethod.rawArgs : MSMethod → List PyVal
  | .get_mounted_volume_list => []
  | .get_sub_folder_list fp => [.str fp]
  | .get_file_list fp => [.str fp]
  | .reveal_in_storage p => [.str p]
  | .add_item_list_to_media_pool items => items
  | .add_item_list_to_media_pool_array items => [.list items]
  | .add_item_list_to_media_pool_info item_info_list => [.list item_info_list]
  | .add_clip_mattes_to_media_pool mpi paths se => [mpi, .list paths, se]
  | .add_timeline_mattes_to_media_pool paths => [.list paths]

/-- The public methods of `ProjectManager`, with their argument tuples. -/
inductive PMMethod where
  | archive_project (project_name file_path : String)
      (is_archive_src_media is_archive_render_cache is_archive_proxy_media : Bool)
  | create_project (project_name : String)
  | delete_project (project_name : String)
  | load_project (project_name : String)
  | get_current_project
  | save_project
  | close_project (project : PyVal)
  | create_folder (folder_name : String)
  | delete_folder (folder_name : String)
  | get_project_list_in_current_folder
  | get_folder_list_in_current_folder
  | goto_root_folder
  | goto_parent_folder
  | get_current_folder
  | open_folder (folder_name : String)
  | import_project (file_path : String) (project_name : PyVal)
  | export_project (project_name file_path : String) (with_stills_and_luts : Bool)
  | restore_project (file_path : String) (project_name : PyVal)
  | get_current_database
  | get_database_list
  | set_current_database (db_info : PyVal)
  | create_cloud_project (cloud_settings : PyVal)
  | import_cloud_project (file_path : String) (cloud_settings : PyVal)
  | restore_cloud_project (folder_path : String) (cloud_settings : PyVal)

/-- Each `ProjectManager` method body, translated from the source.
`get_current_folder` is `return self.project_manager.GetCurrentFolder() or None`;
all other bodies are single forwarded calls. -/
def PMMethod.run (o : Oracle) : PMMethod → PyVal × List VCall
  | .archive_project pn fp src cache proxy =>
    (o "ArchiveProject" [.str pn, .str fp, .bool src, .bool cache, .bool proxy],
      [("ArchiveProject", [.str pn, .str fp, .bool src, .bool cache, .bool proxy])])
  | .create_project pn => (o "CreateProject" [.str pn], [("CreateProject", [.str pn])])
  | .delete_project pn => (o "DeleteProject" [.str pn], [("DeleteProject", [.str pn])])
  | .load_project pn => (o "LoadProject" [.str pn], [("LoadProject", [.str pn])])
  | .get_current_project => (o "GetCurrentProject" [], [("GetCurrentProject", [])])
  | .save_project => (o "SaveProject" [], [("SaveProject", [])])
  | .close_project pr => (o "CloseProject" [pr], [("CloseProject", [pr])])
  | .create_folder fn => (o "CreateFolder" [.str fn], [("CreateFolder", [.str fn])])
  | .delete_folder fn => (o "DeleteFolder" [.str fn], [("DeleteFolder", [.str fn])])
  | .get_project_list_in_current_folder =>
    (o "GetProjectListInCurrentFolder" [], [("GetProjectListInCurrentFolder", [])])
  | .get_folder_list_in_current_folder =>
    (o "GetFolderListInCurrentFolder" [], [("GetFolderListInCurrentFolder", [])])
  | .goto_root_folder => (o "GotoRootFolder" [], [("GotoRootFolder", [])])
  | .goto_parent_folder => (o "GotoParentFolder" [], [("GotoParentFolder", [])])
  | .get_current_folder =>
    (if (o "GetCurrentFolder" []).truthy then o "GetCurrentFolder" [] else .none,
      [("GetCurrentFolder", [])])
  | .open_folder fn => (o "OpenFolder" [.str fn], [("OpenFolder", [.str fn])])
  | .import_project fp pn =>
    (o "ImportProject" [.str fp, pn], [("ImportProject", [.str fp, pn])])
  | .export_project pn fp luts =>
    (o "ExportProject" [.str pn, .str fp, .bool luts],
      [("ExportProject", [.str pn, .str fp, .bool luts])])
  | .restore_project fp pn =>
    (o "RestoreProject" [.str fp, pn], [("RestoreProject", [.str fp, pn])])
  | .get_current_database => (o "GetCurrentDatabase" [], [("GetCurrentDatabase", [])])
  | .get_database_list => (o "GetDatabaseList" [], [("GetDatabaseList", [])])
  | .set_current_database di =>
    (o "SetCurrentDatabase" [di], [("SetCurrentDatabase", [di])])
  | .create_cloud_project cs =>
    (o "CreateCloudProject" [cs], [("CreateCloudProject", [cs])])
  | .import_cloud_project fp cs =>
    (o "ImportCloudProject" [.str fp, cs], [("ImportCloudProject", [.str fp, cs])])
  | .restore_cloud_project fp cs =>
    (o "RestoreCloudProject" [.str fp, cs], [("RestoreCloudProject", [.str fp, cs])])

/-- The Python name of each `ProjectManager` public method. -/
def PMMethod.pyName : PMMethod → String
  | .archive_project _ _ _ _ _ => "archive_project"
  | .create_project _ => "create_project"
  | .delete_project _ => "delete_project"
  | .load_project _ => "load_project"
  | .get_current_project => "get_current_project"
  | .save_project => "save_project"
  | .close_project _ => "close_project"
  | .create_folder _ => "create_folder"
  | .delete_folder _ => "delete_folder"
  | .get_project_list_in_current_folder => "get_project_list_in_current_folder"
  | .get_folder_list_in_current_folder => "get_folder_list_in_current_folder"
  | .goto_root_folder => "goto_root_folder"
  | .goto_parent_folder => "goto_parent_folder"
  | .get_current_folder => "get_current_folder"
  | .open_folder _ => "open_folder"
  | .import_project _ _ => "import_project"
  | .export_project _ _ _ => "export_project"
  | .restore_project _ _ => "restore_project"
  | .get_current_database => "get_current_database"
  | .get_database_list => "get_database_list"
  | .set_current_database _ => "set_current_database"
  | .create_cloud_project _ => "create_cloud_project"
  | .import_cloud_project _ _ => "import_cloud_project"
  | .restore_cloud_project _ _ => "restore_cloud_project"

/-- The vendor operation name named in each `ProjectManager` method body. -/
def PMMethod.vendorOp : PMMethod → String
  | .archive_project _ _ _ _ _ => "ArchiveProject"
  | .create_project _ => "CreateProject"
  | .delete_project _ => "DeleteProject"
  | .load_project _ => "LoadProject"
  | .get_current_project => "GetCurrentProject"
  | .save_project => "SaveProject"
  | .close_project _ => "CloseProject"
  | .create_folder _ => "CreateFolder"
  | .delete_folder _ => "DeleteFolder"
  | .get_project_list_in_current_folder => "GetProjectListInCurrentFolder"
  | .get_folder_list_in_current_folder => "GetFolderListInCurrentFolder"
  | .goto_root_folder => "GotoRootFolder"
  | .goto_parent_folder => "GotoParentFolder"
  | .get_current_folder => "GetCurrentFolder"
  | .open_folder _ => "OpenFolder"
  | .import_project _ _ => "ImportProject"
  | .export_project _ _ _ => "ExportProject"
  | .restore_project _ _ => "RestoreProject"
  | .get_current_database => "GetCurrentDatabase"
  | .get_database_list => "GetDatabaseList"
  | .set_current_database _ => "SetCurrentDatabase"
  | .create_cloud_project _ => "CreateCloudProject"
  | .import_cloud_project _ _ => "ImportCloudProject"
  | .restore_cloud_project _ _ => "RestoreCloudProject"

/-- The method's own arguments, encoded untransformed. -/
def PMMethod.rawArgs : PMMethod → List PyVal
  | .archive_project pn fp src cache proxy =>
    [.str pn, .str fp, .bool src, .bool cache, .bool proxy]
  | .create_project pn => [.str pn]
  | .delete_project pn => [.str pn]
  | .load_project pn => [.str pn]
  | .get_current_project => []
  | .save_project => []
  | .close_project pr => [pr]
  | .create_folder fn => [.str fn]
  | .delete_folder fn => [.str fn]
  | .get_project_list_in_current_folder => []
  | .get_folder_list_in_current_folder => []
  | .goto_root_folder => []
  | .goto_parent_folder => []
  | .get_current_folder => []
  | .open_folder fn => [.str fn]
  | .import_project fp pn => [.str fp, pn]
  | .export_project pn fp luts => [.str pn, .str fp, .bool luts]
  | .restore_project fp pn => [.str fp, pn]
  | .get_current_database => []
  | .get_database_list => []
  | .set_current_database di => [di]
  | .create_cloud_project cs => [cs]
  | .import_cloud_project fp cs => [.str fp, cs]
  | .restore_cloud_project fp cs => [.str fp, cs]

/-- An opaque handle returned by `bmd.scriptapp` (a live application object;
Python's falsy outcome is modelled by `Option.none` at the call site). -/
structure Handle where
  hid : Nat
deriving DecidableEq, Repr

/-- Environment for `Resolve.__init__`: the outcome of `bmd.scriptapp(app)`
(`.ok none` models a falsy return such as Python `None`), and the outcomes of
`self.app.GetMediaStorage()` and `self.app.GetProjectManager()`, each of which
may raise. -/
structure InitEnv where
  scriptapp : Except Exn (Option Handle)
  GetMediaStorage : Except Exn PyVal
  GetProjectManager : Except Exn PyVal

/-- The attributes set by `Resolve.__init__`: `media_storage = some v` models
`self.media_storage = MediaStorage(v)`, and likewise for `project_manager`. -/
structure ResolveState where
  app : Option Handle
  media_storage : Option PyVal
  project_manager : Option PyVal

/-- `Resolve.__init__`, translated from the source: the three attributes start
as `None`; inside the `try` block `self.app` is assigned the `scriptapp`
result, and when it is truthy the two accessor wrappers are built; any
exception is caught (and printed), leaving the attributes assigned so far. -/
def Resolve.init (env : InitEnv) : ResolveState :=
  match env.scriptapp with
  | .error _ => ⟨none, none, none⟩
  | .ok none => ⟨none, none, none⟩
  | .ok (some h) =>
    match env.GetMediaStorage with
    | .error _ => ⟨some h, none, none⟩
    | .ok ms =>
      match env.GetProjectManager with
      | .error _ => ⟨some h, some ms, none⟩
      | .ok pm => ⟨some h, some ms, some pm⟩

/-- A concrete vendor oracle for witnesses: every operation returns `none`. -/
def oracleNone : Oracle := fun _ _ => PyVal.none

/-- A concrete vendor oracle whose every operation returns the string "x". -/
def oracleX : Oracle := fun _ _ => PyVal.str "x"

/-- Trace classifiers for the lifecycle events. -/
def Event.isRun : Event → Bool
  | .run _ => true
  | _ => false

/-- `true` exactly on the two `subprocess.Popen` event forms. -/
def Event.isLaunch : Event → Bool
  | .popenList _ => true
  | .popenStr _ => true
  | _ => false

/-- `true` exactly on `time.sleep` events. -/
def Event.isSleep : Event → Bool
  | .sleep _ => true
  | _ => false

/-- The launch events `Resolve.open` performs for a given `gui` argument. -/
def launchEvents (executable_path gui : String) : List Event :=
  if gui = "-gui" then [Event.popenList [executable_path]]
  else if gui = "-nogui" then [Event.popenStr (executable_path ++ " -nogui")]
  else []

/-- Helper: the exception message of `Resolve.kill` never coincides with its
success message, whatever the stringified exception is. -/
theorem killExnMsg_ne_killedMsg (e : Exn) : killExnMsg e ≠ killedMsg := by
  intro h
  have h2 := congrArg String.data h
  simp only [killExnMsg, String.data_append] at h2
  exact absurd ⟨e.msg.data, h2⟩
    (by decide : ¬("Failed to kill DaVinci Resolve: ".data <+: killedMsg.data))

/-- C4: `ProjectManager.get_current_folder` returns `None` when the vendor
`GetCurrentFolder()` result is falsy and returns the vendor result unchanged
when it is truthy. -/
theorem C4_get_current_folder_normalizes (o : Oracle) :
    ((o "GetCurrentFolder" []).truthy = false →
      (PMMethod.run o .get_current_folder).1 = PyVal.none) ∧
    ((o "GetCurrentFolder" []).truthy = true →
      (PMMethod.run o .get_current_folder).1 = o "GetCurrentFolder" []) := by
  constructor <;> intro h <;> simp [PMMethod.run, h]

/-- Witness for C4 at the all-`none` and all-`"x"` vendor oracles. -/
theorem C4_get_current_folder_normalizes_witness :
    (oracleNone "GetCurrentFolder" []).truthy = false ∧
    (PMMethod.run oracleNone .get_current_folder).1 = PyVal.none ∧
    (oracleX "GetCurrentFolder" []).truthy = true ∧
    (PMMethod.run oracleX .get_current_folder).1 = oracleX "GetCurrentFolder" [] :=
  ⟨rfl, (C4_get_current_folder_normalizes oracleNone).1 rfl, rfl,
    (C4_get_current_folder_normalizes oracleX).2 rfl⟩

/-- C8: `Resolve.open_page` raises `ValueError` exactly when the lowercased
page name is not in `valid_pages`; on a valid name it forwards the lowercased
name to the vendor `OpenPage` and returns that result. -/
theorem C8_open_page_validates (o : Oracle) (page_name : String) :
    (valid_pages.contains (pyLower page_name) = false →
      RMethod.run o (.open_page page_name) =
        (.error (.valueError (invalidPageMsg page_name)), [])) ∧
    (valid_pages.contains (pyLower page_name) = true →
      RMethod.run o (.open_page page_name) =
        (.ok (o "OpenPage" [.str (pyLower page_name)]),
          [("OpenPage", [.str (pyLower page_name)])])) := by
  constructor <;> intro h <;> simp [RMethod.run, h] <;> simpa using h

/-- Witness for C8: "Media" is accepted and forwarded as "media". -/
theorem C8_open_page_validates_witness :
    valid_pages.contains (pyLower "Media") = true ∧
    RMethod.run oracleNone (.open_page "Media") =
      (.ok (oracleNone "OpenPage" [.str (pyLower "Media")]),
        [("OpenPage", [.str (pyLower "Media")])]) :=
  ⟨by decide, (C8_open_page_validates oracleNone "Media").2 (by decide)⟩

/-- C7: `Resolve.kill` returns the forceful-termination message exactly when
the taskkill stdout contains "SUCCESS", returns the failure message when it
does not, turns an exception into the "Failed to kill" message, and the only
effect it performs is the one `taskkill /IM Resolve.exe /F` invocation. -/
theorem C7_kill_reports (env : KillEnv) :
    ((Resolve.kill env).1 = killedMsg ↔
      ∃ out, env.run killCmd = .ok out ∧ strContains out "SUCCESS" = true) ∧
    (∀ out, env.run killCmd = .ok out → strContains out "SUCCESS" = false →
      (Resolve.kill env).1 = killFailedMsg) ∧
    (∀ e, env.run killCmd = .error e → (Resolve.kill env).1 = killExnMsg e) ∧
    (Resolve.kill env).2 = [Event.run killCmd] := by
  refine ⟨?_, ?_, ?_, ?_⟩
  · constructor
    · intro hk
      cases hr : env.run killCmd with
      | error e =>
        rw [show (Resolve.kill env).1 = killExnMsg e by simp [Resolve.kill, hr]] at hk
        exact absurd hk (killExnMsg_ne_killedMsg e)
      | ok out =>
        cases hs : strContains out "SUCCESS" with
        | true => exact ⟨out, rfl, hs⟩
        | false =>
          rw [show (Resolve.kill env).1 = killFailedMsg by
            simp [Resolve.kill, hr, hs]] at hk
          exact absurd hk (by decide)
    · rintro ⟨out, hr, hs⟩
      simp [Resolve.kill, hr, hs]
  · intro out hr hs
    simp [Resolve.kill, hr, hs]
  · intro e hr
    simp [Resolve.kill, hr]
  · cases hr : env.run killCmd with
    | error e => simp [Resolve.kill, hr]
    | ok out => cases hs : strContains out "SUCCESS" <;> simp [Resolve.kill, hr, hs]

/-- A concrete kill environment whose taskkill reports success. -/
def envKillOk : KillEnv := ⟨fun _ => .ok "SUCCESS: The process has been terminated."⟩

/-- Witness for C7 at a taskkill run that prints SUCCESS. -/
theorem C7_kill_reports_witness :
    (Resolve.kill envKillOk).1 = killedMsg :=
  (C7_kill_reports envKillOk).1.mpr
    ⟨"SUCCESS: The process has been terminated.", rfl, by decide⟩

/-- C5: whenever a primitive inside the try block of `Resolve.open` raises
`e` — the first task-list query, the launch, the sleep, or the second
task-list query — the call still returns a string, namely
`"Error: Failed to open DaVinci Resolve - " ++ str(e)`.  (That it always
returns a string at all is built into the model: `Resolve.openApp` is a total
function into `String × List Event`.) -/
theorem C5_open_catches_exceptions (env : OpenEnv) (executable_path : String)
    (wait_time : Nat) (gui : String) (e : Exn)
    (hpath : env.pathExists executable_path = true) :
    (env.tasklist 0 = .error e →
      (Resolve.openApp env executable_path wait_time gui).1 = openFailMsg e) ∧
    (∀ out1, env.tasklist 0 = .ok out1 → strContains out1 "Resolve.exe" = false →
      (gui = "-gui" ∨ gui = "-nogui") → env.popen = .error e →
      (Resolve.openApp env executable_path wait_time gui).1 = openFailMsg e) ∧
    (∀ out1, env.tasklist 0 = .ok out1 → strContains out1 "Resolve.exe" = false →
      ((gui = "-gui" ∨ gui = "-nogui") → env.popen = .ok ()) → env.sleep = .error e →
      (Resolve.openApp env executable_path wait_time gui).1 = openFailMsg e) ∧
    (∀ out1, env.tasklist 0 = .ok out1 → strContains out1 "Resolve.exe" = false →
      ((gui = "-gui" ∨ gui = "-nogui") → env.popen = .ok ()) → env.sleep = .ok () →
      env.tasklist 1 = .error e →
      (Resolve.openApp env executable_path wait_time gui).1 = openFailMsg e) := by
  refine ⟨?_, ?_, ?_, ?_⟩
  · intro h0
    simp [Resolve.openApp, hpath, h0]
  · intro out1 h0 hc hgui hp
    rcases hgui with hg | hg <;> subst hg <;>
      simp [Resolve.openApp, hpath, h0, hc, hp]
  · intro out1 h0 hc hp hs
    by_cases hg : gui = "-gui"
    · subst hg
      simp [Resolve.openApp, afterLaunch, hpath, h0, hc, hp (Or.inl rfl), hs]
    · by_cases hg2 : gui = "-nogui"
      · subst hg2
        simp [Resolve.openApp, afterLaunch, hpath, h0, hc, hp (Or.inr rfl), hs]
      · simp [Resolve.openApp, afterLaunch, hpath, h0, hc, hg, hg2, hs]
  · intro out1 h0 hc hp hs h1
    by_cases hg : gui = "-gui"
    · subst hg
      simp [Resolve.openApp, afterLaunch, hpath, h0, hc, hp (Or.inl rfl), hs, h1]
    · by_cases hg2 : gui = "-nogui"
      · subst hg2
        simp [Resolve.openApp, afterLaunch, hpath, h0, hc, hp (Or.inr rfl), hs, h1]
      · simp [Resolve.openApp, afterLaunch, hpath, h0, hc, hg, hg2, hs, h1]

/-- An open environment whose first task-list query raises. -/
def envTasklistRaises : OpenEnv :=
  ⟨fun _ => true, fun _ => .error ⟨"boom"⟩, .ok (), .ok ()⟩

/-- Witness for C5: a raising task-list query yields the stringified error. -/
theorem C5_open_catches_exceptions_witness :
    (Resolve.openApp envTasklistRaises "C:/Resolve.exe" 15 "-gui").1 =
      openFailMsg ⟨"boom"⟩ :=
  (C5_open_catches_exceptions envTasklistRaises "C:/Resolve.exe" 15 "-gui"
    ⟨"boom"⟩ rfl).1 rfl

/-- C6: on every input and every behaviour of the primitives, one call of
`Resolve.open` queries the task list at most twice, launches at most once,
sleeps at most once, and any sleep it performs is for exactly `wait_time`;
the trace is a fixed bounded sequence with no retry. -/
theorem C6_open_bounded (env : OpenEnv) (executable_path : String)
    (wait_time : Nat) (gui : String) :
    (((Resolve.openApp env executable_path wait_time gui).2.filter
        Event.isRun).length ≤ 2) ∧
    (((Resolve.openApp env executable_path wait_time gui).2.filter
        Event.isLaunch).length ≤ 1) ∧
    (((Resolve.openApp env executable_path wait_time gui).2.filter
        Event.isSleep).length ≤ 1) ∧
    ((Resolve.openApp env executable_path wait_time gui).2.filter
        Event.isSleep = [] ∨
      (Resolve.openApp env executable_path wait_time gui).2.filter
        Event.isSleep = [Event.sleep wait_time]) := by
  unfold Resolve.openApp afterLaunch
  repeat' split
  all_goals simp [Event.isRun, Event.isLaunch, Event.isSleep, List.filter]

/-- C10: the early-exit branches of `Resolve.open` have no launch effect: a
missing path returns its error with an empty trace (no query, no launch, no
sleep); an already-running first query returns after exactly one query; and
an unrecognized `gui` value never launches anything although the sleep and
the re-check still happen. -/
theorem C10_open_frame (env : OpenEnv) (executable_path : String)
    (wait_time : Nat) (gui : String) :
    (env.pathExists executable_path = false →
      Resolve.openApp env executable_path wait_time gui =
        (notFoundMsg executable_path, [])) ∧
    (∀ out1, env.pathExists executable_path = true →
      env.tasklist 0 = .ok out1 → strContains out1 "Resolve.exe" = true →
      Resolve.openApp env executable_path wait_time gui =
        (alreadyRunningMsg, [Event.run ["tasklist"]])) ∧
    (∀ out1, env.pathExists executable_path = true →
      env.tasklist 0 = .ok out1 → strContains out1 "Resolve.exe" = false →
      gui ≠ "-gui" → gui ≠ "-nogui" → env.sleep = .ok () →
      (Resolve.openApp env executable_path wait_time gui).2 =
        [Event.run ["tasklist"], Event.sleep wait_time, Event.run ["tasklist"]]) := by
  refine ⟨?_, ?_, ?_⟩
  · intro hpath
    simp [Resolve.openApp, hpath]
  · intro out1 hpath h0 hc
    simp [Resolve.openApp, hpath, h0, hc]
  · intro out1 hpath h0 hc hg hg2 hs
    cases h1 : env.tasklist 1 with
    | error e =>
      simp [Resolve.openApp, afterLaunch, hpath, h0, hc, hg, hg2, hs, h1]
    | ok out2 =>
      cases hc2 : strContains out2 "Resolve.exe" <;>
        simp [Resolve.openApp, afterLaunch, hpath, h0, hc, hg, hg2, hs, h1, hc2]

/-- An open environment for the missing-path early exit. -/
def envNoPath : OpenEnv :=
  ⟨fun _ => false, fun _ => .ok "", .ok (), .ok ()⟩

/-- Witness for C10: a missing executable path returns its message with an
empty effect trace. -/
theorem C10_open_frame_witness :
    Resolve.openApp envNoPath "D:/wrong/path/Resolve.exe" 15 "-gui" =
      (notFoundMsg "D:/wrong/path/Resolve.exe", []) :=
  (C10_open_frame envNoPath "D:/wrong/path/Resolve.exe" 15 "-gui").1 rfl

/-- An open environment where the path exists, the task list is empty on both
queries, and every primitive succeeds. -/
def envIdle : OpenEnv :=
  ⟨fun _ => true, fun _ => .ok "", .ok (), .ok ()⟩

/-- C1 counterexample: at `gui = "x"` (neither "-gui" nor "-nogui"), with the
executable path existing and Resolve absent from the task list, the routine
performs no launch at all — its trace is query, sleep, query — although the
claim requires it to launch the executable in this situation. -/
theorem C1_counterexample :
    envIdle.pathExists "C:/Resolve.exe" = true ∧
    strContains "" "Resolve.exe" = false ∧
    Resolve.openApp envIdle "C:/Resolve.exe" 15 "x" =
      (notDetectedMsg,
        [Event.run ["tasklist"], Event.sleep 15, Event.run ["tasklist"]]) ∧
    (Resolve.openApp envIdle "C:/Resolve.exe" 15 "x").2.filter Event.isLaunch = [] := by
  refine ⟨rfl, by decide, by decide, by decide⟩

/-- C1 (amended): when the executable path exists, the primitives raise no
exception, and `gui` is "-gui" or "-nogui" (otherwise nothing is launched),
`Resolve.open` follows the claimed sequence: it queries the task list and
returns the already-running message if Resolve.exe appears; otherwise it
launches, sleeps for `wait_time`, re-queries once, and returns the success
message exactly when Resolve.exe now appears, the failure message
otherwise. -/
theorem C1_open_sequence (env : OpenEnv) (executable_path : String)
    (wait_time : Nat) (gui : String) (out1 out2 : String)
    (hpath : env.pathExists executable_path = true)
    (h0 : env.tasklist 0 = .ok out1)
    (h1 : env.tasklist 1 = .ok out2)
    (hpop : env.popen = .ok ())
    (hsleep : env.sleep = .ok ()) :
    (strContains out1 "Resolve.exe" = true →
      Resolve.openApp env executable_path wait_time gui =
        (alreadyRunningMsg, [Event.run ["tasklist"]])) ∧
    (strContains out1 "Resolve.exe" = false →
      Resolve.openApp env executable_path wait_time gui =
        ((if strContains out2 "Resolve.exe" then openedMsg else notDetectedMsg),
          Event.run ["tasklist"] ::
            (launchEvents executable_path gui ++
              [Event.sleep wait_time, Event.run ["tasklist"]]))) := by
  constructor
  · intro hc
    simp [Resolve.openApp, hpath, h0, hc]
  · intro hc
    by_cases hg : gui = "-gui"
    · subst hg
      cases hc2 : strContains out2 "Resolve.exe" <;>
        simp [Resolve.openApp, afterLaunch, launchEvents, hpath, h0, hc, hpop,
          hsleep, h1, hc2]
    · by_cases hg2 : gui = "-nogui"
      · subst hg2
        cases hc2 : strContains out2 "Resolve.exe" <;>
          simp [Resolve.openApp, afterLaunch, launchEvents, hpath, h0, hc, hpop,
            hsleep, h1, hc2]
      · cases hc2 : strContains out2 "Resolve.exe" <;>
          simp [Resolve.openApp, afterLaunch, launchEvents, hpath, h0, hc, hg,
            hg2, hsleep, h1, hc2]

/-- An open environment where Resolve already shows up in the task list. -/
def envBusy : OpenEnv :=
  ⟨fun _ => true, fun _ => .ok "svchost.exe Resolve.exe cmd.exe", .ok (), .ok ()⟩

/-- Witness for the amended C1: with Resolve already in the task list the
call reports it is already running after a single query. -/
theorem C1_open_sequence_witness :
    Resolve.openApp envBusy "C:/Resolve.exe" 15 "-gui" =
      (alreadyRunningMsg, [Event.run ["tasklist"]]) :=
  (C1_open_sequence envBusy "C:/Resolve.exe" 15 "-gui"
    "svchost.exe Resolve.exe cmd.exe" "svchost.exe Resolve.exe cmd.exe"
    rfl rfl rfl rfl rfl).1 (by decide)

/-- An init environment where connecting succeeds but `GetMediaStorage()`
raises: the `except` clause then leaves `app` set and the accessors `None`. -/
def envInitBad : InitEnv := ⟨.ok (some ⟨0⟩), .error ⟨"boom"⟩, .ok (.obj 1)⟩

/-- C9 counterexample: after `__init__` in `envInitBad`, `app` is set while
`media_storage` and `project_manager` are still `None` — the three attributes
are neither all set nor all `None`, refuting the claimed invariant. -/
theorem C9_counterexample :
    Resolve.init envInitBad = ⟨some ⟨0⟩, none, none⟩ ∧
    (Resolve.init envInitBad).app ≠ none ∧
    (Resolve.init envInitBad).media_storage = none ∧
    (Resolve.init envInitBad).project_manager = none :=
  ⟨rfl, fun h => Option.noConfusion h, rfl, rfl⟩

/-- C9 (amended): `__init__` never propagates an exception (the model is a
total function into `ResolveState`), and the attributes are determined as
follows: if `scriptapp` raises or returns a falsy handle all three stay
`None`; if it returns a truthy handle and both vendor getters succeed all
three are set; but if `GetMediaStorage()` raises only `app` is set, and if
`GetProjectManager()` raises only `app` and `media_storage` are set. -/
theorem C9_init_attributes (env : InitEnv) :
    (∀ e, env.scriptapp = .error e →
      Resolve.init env = ⟨none, none, none⟩) ∧
    (env.scriptapp = .ok none →
      Resolve.init env = ⟨none, none, none⟩) ∧
    (∀ hd e, env.scriptapp = .ok (some hd) → env.GetMediaStorage = .error e →
      Resolve.init env = ⟨some hd, none, none⟩) ∧
    (∀ hd ms e, env.scriptapp = .ok (some hd) → env.GetMediaStorage = .ok ms →
      env.GetProjectManager = .error e →
      Resolve.init env = ⟨some hd, some ms, none⟩) ∧
    (∀ hd ms pm, env.scriptapp = .ok (some hd) → env.GetMediaStorage = .ok ms →
      env.GetProjectManager = .ok pm →
      Resolve.init env = ⟨some hd, some ms, some pm⟩) := by
  refine ⟨?_, ?_, ?_, ?_, ?_⟩
  · intro e h; simp [Resolve.init, h]
  · intro h; simp [Resolve.init, h]
  · intro hd e h hm; simp [Resolve.init, h, hm]
  · intro hd ms e h hm hp; simp [Resolve.init, h, hm, hp]
  · intro hd ms pm h hm hp; simp [Resolve.init, h, hm, hp]

/-- An init environment where every vendor call succeeds. -/
def envInitOk : InitEnv := ⟨.ok (some ⟨0⟩), .ok (.obj 1), .ok (.obj 2)⟩

/-- Witness for the amended C9: a fully successful initialization sets all
three attributes. -/
theorem C9_init_attributes_witness :
    Resolve.init envInitOk = ⟨some ⟨0⟩, some (.obj 1), some (.obj 2)⟩ :=
  (C9_init_attributes envInitOk).2.2.2.2 ⟨0⟩ (.obj 1) (.obj 2) rfl rfl rfl

/-- C2 counterexample: `Resolve.open_page` is not a pure pass-through: on an
invalid page name it raises its own `ValueError` and makes no vendor call at
all, and on a valid mixed-case name it forwards the lowercased name rather
than its own argument ("Media" becomes "media"). -/
theorem C2_counterexample :
    RMethod.run oracleNone (.open_page "InvalidPage") =
      (.error (.valueError (invalidPageMsg "InvalidPage")), []) ∧
    (RMethod.run oracleNone (.open_page "Media")).2 =
      [("OpenPage", [.str "media"])] ∧
    RMethod.rawArgs (.open_page "Media") = [.str "Media"] ∧
    (RMethod.run oracleNone (.open_page "Media")).2 ≠
      [(RMethod.vendorOp (.open_page "Media"), RMethod.rawArgs (.open_page "Media"))] := by
  refine ⟨rfl, rfl, rfl, ?_⟩
  intro h
  rw [show RMethod.vendorOp (.open_page "Media") = "OpenPage" from rfl,
    show RMethod.rawArgs (.open_page "Media") = [PyVal.str "Media"] from rfl] at h
  have hL : (RMethod.run oracleNone (.open_page "Media")).2 =
      [("OpenPage", [PyVal.str "media"])] := rfl
  have h2 := hL.symm.trans h
  simp at h2

/-- C2 (amended): every public wrapper method of `Resolve`, `MediaStorage`
and `ProjectManager` forwards its arguments unchanged to its vendor operation
and returns that operation's result, with exactly two exceptions:
`Resolve.open_page` validates the page name — raising `ValueError` on an
invalid one — and forwards the lowercased name, and
`ProjectManager.get_current_folder` normalizes a falsy vendor result to
`None`. -/
theorem C2_wrappers_forward (o : Oracle) :
    (∀ m : RMethod, (∀ p, m ≠ .open_page p) →
      RMethod.run o m = (.ok (o m.vendorOp m.rawArgs), [(m.vendorOp, m.rawArgs)])) ∧
    (∀ p, valid_pages.contains (pyLower p) = true →
      RMethod.run o (.open_page p) =
        (.ok (o "OpenPage" [.str (pyLower p)]), [("OpenPage", [.str (pyLower p)])])) ∧
    (∀ p, valid_pages.contains (pyLower p) = false →
      RMethod.run o (.open_page p) =
        (.error (.valueError (invalidPageMsg p)), [])) ∧
    (∀ m : MSMethod,
      MSMethod.run o m = (o m.vendorOp m.rawArgs, [(m.vendorOp, m.rawArgs)])) ∧
    (∀ m : PMMethod, m ≠ .get_current_folder →
      PMMethod.run o m = (o m.vendorOp m.rawArgs, [(m.vendorOp, m.rawArgs)])) ∧
    (PMMethod.run o .get_current_folder =
      ((if (o "GetCurrentFolder" []).truthy then o "GetCurrentFolder" [] else .none),
        [("GetCurrentFolder", [])])) := by
  refine ⟨?_, ?_, ?_, ?_, ?_, rfl⟩
  · intro m hm
    cases m <;> first | exact absurd rfl (hm _) | rfl
  · intro p hp
    simp [RMethod.run, hp]
    simpa using hp
  · intro p hp
    simp [RMethod.run, hp]
    simpa using hp
  · intro m
    cases m <;> rfl
  · intro m hm
    cases m <;> first | exact absurd rfl hm | rfl

/-- Witness for the amended C2: `create_project` forwards its name argument
untouched and returns the vendor result. -/
theorem C2_wrappers_forward_witness :
    PMMethod.run oracleNone (.create_project "p") =
      (oracleNone "CreateProject" [.str "p"], [("CreateProject", [.str "p"])]) :=
  (C2_wrappers_forward oracleNone).2.2.2.2.1 (.create_project "p")
    (fun h => PMMethod.noConfusion h)

/-- C3 counterexample: `add_item_list_to_media_pool_array` and
`add_item_list_to_media_pool_info` are distinct public methods of
`MediaStorage`, yet both invoke the same vendor operation
`AddItemListToMediaPool` (as does `add_item_list_to_media_pool`), refuting
the claimed distinctness. -/
theorem C3_counterexample :
    MSMethod.pyName (.add_item_list_to_media_pool_array []) ≠
      MSMethod.pyName (.add_item_list_to_media_pool_info []) ∧
    MSMethod.vendorOp (.add_item_list_to_media_pool_array []) =
      MSMethod.vendorOp (.add_item_list_to_media_pool_info []) ∧
    (MSMethod.run oracleNone (.add_item_list_to_media_pool_array [])).2 =
      [("AddItemListToMediaPool", [.list []])] ∧
    (MSMethod.run oracleNone (.add_item_list_to_media_pool_info [])).2 =
      [("AddItemListToMediaPool", [.list []])] :=
  ⟨by decide, rfl, rfl, rfl⟩

/-- C3 (amended): every public method of `MediaStorage` and `ProjectManager`
invokes exactly one vendor operation (its trace is one call, of its vendor
operation's name); distinct `ProjectManager` methods invoke distinct vendor
operations; and distinct `MediaStorage` methods invoke distinct vendor
operations except for the three `add_item_list_to_media_pool` variants,
which all invoke `AddItemListToMediaPool`. -/
theorem C3_accessor_correspondence :
    (∀ (o : Oracle) (m : MSMethod),
      (MSMethod.run o m).2.map Prod.fst = [m.vendorOp]) ∧
    (∀ (o : Oracle) (m : PMMethod),
      (PMMethod.run o m).2.map Prod.fst = [m.vendorOp]) ∧
    (∀ m₁ m₂ : PMMethod, m₁.vendorOp = m₂.vendorOp → m₁.pyName = m₂.pyName) ∧
    (∀ m₁ m₂ : MSMethod, m₁.vendorOp = m₂.vendorOp →
      m₁.pyName = m₂.pyName ∨ m₁.vendorOp = "AddItemListToMediaPool") := by
  refine ⟨?_, ?_, ?_, ?_⟩
  · intro o m; cases m <;> rfl
  · intro o m; cases m <;> rfl
  · intro m₁ m₂
    cases m₁ <;> cases m₂ <;> simp [PMMethod.vendorOp, PMMethod.pyName]
  · intro m₁ m₂
    cases m₁ <;> cases m₂ <;> simp [MSMethod.vendorOp, MSMethod.pyName]

/-- Witness for the amended C3: matching vendor operations force matching
method names on `ProjectManager` (applied at two `create_project` calls). -/
theorem C3_accessor_correspondence_witness :
    PMMethod.pyName (.create_project "p") = PMMethod.pyName (.create_project "q") :=
  C3_accessor_correspondence.2.2.1 (.create_project "p") (.create_project "q") rfl
